import Mathlib

/-!
Shallow embedding of the document-synchronization core of the
localized-rag repository (src/document_management.py, src/manifest_utils.py,
src/indexing.py), together with theorems about its change classification,
reconciliation control flow, and error handling.

Filesystem reads, content loading, the ingestion pipeline and the vector
store are external collaborators; they are modelled as oracles that either
return a value or raise (an `Except` / failure option), so that every
control path of the Python source - including its try/except structure -
is represented explicitly.
-/

deriving instance DecidableEq for Except

namespace LocalizedRag

/-- Exceptions are modelled as opaque messages. -/
abbrev Err := String

abbrev Filename := String

abbrev Path := String

/-- Metadata pair produced by os.path.getmtime / os.path.getsize for one file:
(last modified timestamp, file size). -/
structure FileMeta where
  last_modified : Int
  file_size : Nat
deriving DecidableEq, Repr

/-- One manifest entry as read back from JSON: a dict whose
last_modified / file_size fields may be missing (entry.get returns None). -/
structure ManifestEntry where
  last_modified : Option Int
  file_size : Option Nat
deriving DecidableEq, Repr

/-- Result of get_document_state: filename to (mtime, size), in scan order,
keys unique (a Python dict). -/
abbrev Snapshot := List (Filename × FileMeta)

/-- The manifest dict: filename to manifest entry, keys unique. -/
abbrev Manifest := List (Filename × ManifestEntry)

/-- A raw loaded document (opaque content). -/
abbrev Document := String

/-- A node produced by the ingestion pipeline (opaque content). -/
abbrev Node := String

/-- The vector store index, tracked by provenance: an index loaded from the
store, an index built by VectorStoreIndex.from_documents, or an index after
index.insert_nodes appended nodes. -/
inductive Index where
  | existing (id : Nat)
  | builtFrom (docs : List Document)
  | insertedNodes (base : Index) (nodes : List Node)
deriving DecidableEq, Repr

/-- Events recording each collaborator invocation made during one cycle. -/
inductive Event where
  | loadDirCall
  | loadFilesCall (paths : List Path)
  | pipelineCall (docs : List Document)
  | buildCall (docs : List Document)
  | insertCall (nodes : List Node)
deriving DecidableEq, Repr

/-- Collaborator oracles: what each external call returns (or the exception
it raises) during this cycle. -/
structure Collaborators where
  loadDir : Except Err (List Document)
  loadFiles : List Path → Except Err (List Document)
  runPipeline : List Document → Except Err (List Node)
  buildFail : List Document → Option Err
  insertFail : Index → List Node → Option Err

/-- Translation of os.path.join for the one pattern the source uses. -/
def joinPath (dir fn : String) : Path := dir ++ "/" ++ fn

/-- Translation of Python str.endswith for the one suffix the source tests. -/
def endsWithPdf (s : String) : Bool := List.isSuffixOf ".pdf".toList s.toList

/-- Classification outcome for one snapshot entry, mirroring the loop body at
document_management.py lines 66-79. -/
inductive EntryClass where
  | added
  | updated
  | unchanged
deriving DecidableEq, Repr

/-- Per-file classification from document_management.py lines 66-79:
absent from manifest means added; a manifest entry missing last_modified or
file_size means updated; otherwise updated iff the snapshot timestamp is
strictly newer or the size differs. -/
def classifyEntry (manifest_data : Manifest) (filename : Filename)
    (meta : FileMeta) : EntryClass :=
  match manifest_data.lookup filename with
  | none => .added
  | some old_entry =>
    match old_entry.last_modified, old_entry.file_size with
    | some old_last_modified, some old_file_size =>
      if meta.last_modified > old_last_modified ∨ meta.file_size ≠ old_file_size then
        .updated
      else
        .unchanged
    | _, _ => .updated

/-- Filenames accumulated into docs_to_add by the classification loop. -/
def addedFiles (current_document_state : Snapshot) (manifest_data : Manifest) :
    List Filename :=
  (current_document_state.filter fun e =>
    classifyEntry manifest_data e.1 e.2 == EntryClass.added).map Prod.fst

/-- Filenames accumulated into docs_to_update by the classification loop. -/
def updatedFiles (current_document_state : Snapshot) (manifest_data : Manifest) :
    List Filename :=
  (current_document_state.filter fun e =>
    classifyEntry manifest_data e.1 e.2 == EntryClass.updated).map Prod.fst

/-- The docs_to_add list of paths (document_management.py line 69). -/
def docs_to_add (documents_dir : String) (current_document_state : Snapshot)
    (manifest_data : Manifest) : List Path :=
  (addedFiles current_document_state manifest_data).map (joinPath documents_dir)

/-- The docs_to_update list of paths (document_management.py lines 76 and 79). -/
def docs_to_update (documents_dir : String) (current_document_state : Snapshot)
    (manifest_data : Manifest) : List Path :=
  (updatedFiles current_document_state manifest_data).map (joinPath documents_dir)

/-- The filenames_to_delete list (document_management.py lines 81-84): manifest
keys absent from the snapshot that end in .pdf. -/
def filenames_to_delete (current_document_state : Snapshot)
    (manifest_data : Manifest) : List Filename :=
  (manifest_data.filter fun e =>
    (current_document_state.lookup e.1).isNone && endsWithPdf e.1).map Prod.fst

/-- The updated_manifest_data dict built at document_management.py lines
139-142: every snapshot entry written back with both fields present. -/
def updated_manifest_data (current_document_state : Snapshot) : Manifest :=
  current_document_state.map fun e =>
    (e.1, ⟨some e.2.last_modified, some e.2.file_size⟩)

/-- VectorStoreIndex.from_documents as an oracle call: raises per buildFail,
otherwise yields an index built from exactly the given documents. -/
def from_documents (c : Collaborators) (docs : List Document) : Except Err Index :=
  match c.buildFail docs with
  | some e => .error e
  | none => .ok (Index.builtFrom docs)

/-- index.insert_nodes as an oracle call: raises per insertFail, otherwise
appends the nodes to the index. -/
def insert_nodes (c : Collaborators) (index : Index) (nodes : List Node) :
    Except Err Index :=
  match c.insertFail index nodes with
  | some e => .error e
  | none => .ok (Index.insertedNodes index nodes)

/-- Translation of index_nodes_llamaindex (indexing.py lines 10-37): empty
node list skips the insert; an exception from insert_nodes is caught and
logged, leaving the index as it was. Returns the resulting index and the
insert events issued. -/
def index_nodes_llamaindex (c : Collaborators) (index : Index)
    (nodes : List Node) : Index × List Event :=
  if nodes.isEmpty then
    (index, [])
  else
    match insert_nodes c index nodes with
    | .ok idx => (idx, [Event.insertCall nodes])
    | .error _ => (index, [Event.insertCall nodes])

/-- Observable outcome of one reconciliation cycle: the returned index (or
the exception that escaped), the collaborator calls made, and the manifest
handed to save_manifest (none when the cycle aborted before write-back). -/
structure SyncResult where
  outcome : Except Err (Option Index)
  trace : List Event
  savedManifest : Option Manifest
deriving Repr

/-- Translation of the body of sync_documents_with_vector_store
(document_management.py lines 47-144) given the already-computed snapshot and
manifest. Case 1 (lines 86-107): updates or deletions trigger a full reload
and rebuild, with from_documents, the pipeline and the node insert inside the
try block but the content load outside it. Case 2 (lines 108-134): only new
documents are loaded (load outside any try) and inserted incrementally when
an index exists, or a fresh index is built (outside any try) when none does.
Case 3 (lines 135-136): nothing changed. All branches then rewrite the
manifest to the current snapshot (lines 138-143). -/
def sync_with_state (c : Collaborators) (documents_dir : String)
    (current_document_state : Snapshot) (manifest_data : Manifest)
    (existing_index : Option Index) : SyncResult :=
  if ¬ (docs_to_update documents_dir current_document_state manifest_data).isEmpty
      ∨ ¬ (filenames_to_delete current_document_state manifest_data).isEmpty then
    match c.loadDir with
    | .error e => ⟨.error e, [.loadDirCall], none⟩
    | .ok all_documents =>
      if all_documents.isEmpty then
        ⟨.ok existing_index, [.loadDirCall],
          some (updated_manifest_data current_document_state)⟩
      else
        match from_documents c all_documents with
        | .error _ =>
          ⟨.ok existing_index, [.loadDirCall, .buildCall all_documents],
            some (updated_manifest_data current_document_state)⟩
        | .ok builtIdx =>
          match c.runPipeline all_documents with
          | .error _ =>
            ⟨.ok (some builtIdx),
              [.loadDirCall, .buildCall all_documents,
                .pipelineCall all_documents],
              some (updated_manifest_data current_document_state)⟩
          | .ok nodes =>
            ⟨.ok (some (index_nodes_llamaindex c builtIdx nodes).1),
              [.loadDirCall, .buildCall all_documents,
                .pipelineCall all_documents] ++
                (index_nodes_llamaindex c builtIdx nodes).2,
              some (updated_manifest_data current_document_state)⟩
  else if ¬ (docs_to_add documents_dir current_document_state manifest_data).isEmpty then
    match c.loadFiles (docs_to_add documents_dir current_document_state manifest_data) with
    | .error e =>
      ⟨.error e,
        [.loadFilesCall (docs_to_add documents_dir current_document_state manifest_data)],
        none⟩
    | .ok new_documents =>
      if new_documents.isEmpty then
        ⟨.ok existing_index,
          [.loadFilesCall (docs_to_add documents_dir current_document_state manifest_data)],
          some (updated_manifest_data current_document_state)⟩
      else
        match existing_index with
        | none =>
          match from_documents c new_documents with
          | .error e =>
            ⟨.error e,
              [.loadFilesCall (docs_to_add documents_dir current_document_state manifest_data),
                .buildCall new_documents],
              none⟩
          | .ok builtIdx =>
            ⟨.ok (some builtIdx),
              [.loadFilesCall (docs_to_add documents_dir current_document_state manifest_data),
                .buildCall new_documents],
              some (updated_manifest_data current_document_state)⟩
        | some idx =>
          match c.runPipeline new_documents with
          | .error _ =>
            ⟨.ok (some idx),
              [.loadFilesCall (docs_to_add documents_dir current_document_state manifest_data),
                .pipelineCall new_documents],
              some (updated_manifest_data current_document_state)⟩
          | .ok new_nodes =>
            ⟨.ok (some (index_nodes_llamaindex c idx new_nodes).1),
              [.loadFilesCall (docs_to_add documents_dir current_document_state manifest_data),
                .pipelineCall new_documents] ++
                (index_nodes_llamaindex c idx new_nodes).2,
              some (updated_manifest_data current_document_state)⟩
  else
    ⟨.ok existing_index, [], some (updated_manifest_data current_document_state)⟩

/-- Filesystem oracle for one directory scan: the os.listdir result (or the
exception it raises), the os.path.isfile answers, and the metadata reads
(getmtime and getsize combined; either raising is a failed read). -/
structure DirFS where
  listing : Except Err (List Filename)
  isFile : Path → Bool
  fileMeta : Path → Except Err FileMeta

/-- The scan loop of get_document_state (document_management.py lines 35-41):
files are visited in listing order, keeping .pdf regular files; a metadata
read failure raises out of the loop and is caught by the surrounding except,
keeping the entries accumulated so far. -/
def scanFiles (fs : DirFS) (documents_dir : String) : List Filename → Snapshot
  | [] => []
  | filename :: rest =>
    if endsWithPdf filename then
      let filepath := joinPath documents_dir filename
      if fs.isFile filepath then
        match fs.fileMeta filepath with
        | .error _ => []
        | .ok m => (filename, m) :: scanFiles fs documents_dir rest
      else
        scanFiles fs documents_dir rest
    else
      scanFiles fs documents_dir rest

/-- Translation of get_document_state (document_management.py lines 28-45):
a listing failure is caught and yields the (empty) accumulated state; a
metadata failure mid-scan is caught and yields the partial state. -/
def get_document_state (fs : DirFS) (documents_dir : String) : Snapshot :=
  match fs.listing with
  | .error _ => []
  | .ok files => scanFiles fs documents_dir files

/-- State of the manifest file on disk when load_manifest runs: absent,
present but unreadable (open or read raises), present but malformed
(json.load raises), or present and parsed to a manifest. -/
inductive ManifestFile where
  | absent
  | readFail (e : Err)
  | badJson (e : Err)
  | parsed (m : Manifest)
deriving Repr

/-- The body of load_manifest's try block (manifest_utils.py lines 13-21):
absent file returns the empty dict, a read or parse failure raises, a parsed
file returns its contents. -/
def load_manifest_attempt (f : ManifestFile) : Except Err Manifest :=
  match f with
  | .absent => .ok []
  | .readFail e => .error e
  | .badJson e => .error e
  | .parsed m => .ok m

/-- Translation of load_manifest (manifest_utils.py lines 8-24): the except
clause turns any raised exception into the empty manifest. -/
def load_manifest (f : ManifestFile) : Manifest :=
  match load_manifest_attempt f with
  | .ok m => m
  | .error _ => []

/-- Translation of save_manifest (manifest_utils.py lines 26-35): returns the
manifest content written to disk, or none when the write raised (the
exception is caught and logged). -/
def save_manifest (manifest : Manifest) (writeFail : Option Err) :
    Option Manifest :=
  match writeFail with
  | some _ => none
  | none => some manifest

/-- Translation of the full sync_documents_with_vector_store entry point:
the snapshot comes from get_document_state and the manifest from
load_manifest (document_management.py lines 56-57), then the cycle body
runs. -/
def sync_documents_with_vector_store (c : Collaborators) (fs : DirFS)
    (mf : ManifestFile) (documents_dir : String) (existing_index : Option Index) :
    SyncResult :=
  sync_with_state c documents_dir (get_document_state fs documents_dir)
    (load_manifest mf) existing_index

/-! Helper lemmas about lookup and the classification lists. -/

theorem mem_of_lookup_eq_some {β : Type} {s : List (Filename × β)} {fn : Filename}
    {v : β} (h : s.lookup fn = some v) : (fn, v) ∈ s := by
  induction s with
  | nil => simp [List.lookup] at h
  | cons e rest ih =>
    obtain ⟨k, b⟩ := e
    by_cases hk : fn = k
    · subst hk
      simp [List.lookup] at h
      simp [h]
    · have hbeq : (fn == k) = false := beq_false_of_ne hk
      simp [List.lookup, hbeq] at h
      exact List.mem_cons_of_mem _ (ih h)

theorem lookup_eq_some_of_mem {β : Type} {s : List (Filename × β)}
    (hnd : (s.map Prod.fst).Nodup) {fn : Filename} {v : β}
    (h : (fn, v) ∈ s) : s.lookup fn = some v := by
  induction s with
  | nil => cases h
  | cons e rest ih =>
    obtain ⟨k, b⟩ := e
    simp only [List.map_cons, List.nodup_cons] at hnd
    rcases List.mem_cons.mp h with heq | hmem
    · cases heq
      simp [List.lookup]
    · have hne : fn ≠ k := by
        rintro rfl
        exact hnd.1 (List.mem_map.mpr ⟨(fn, v), hmem, rfl⟩)
      simp [List.lookup, beq_false_of_ne hne]
      exact ih hnd.2 hmem

theorem mem_classFiltered {s : Snapshot} {m : Manifest} {fn : Filename}
    {cl : EntryClass} :
    fn ∈ (s.filter fun e => classifyEntry m e.1 e.2 == cl).map Prod.fst ↔
      ∃ meta, (fn, meta) ∈ s ∧ classifyEntry m fn meta = cl := by
  simp only [List.mem_map, List.mem_filter]
  constructor
  · rintro ⟨⟨a, b⟩, ⟨hmem, hcl⟩, rfl⟩
    exact ⟨b, hmem, by simpa using hcl⟩
  · rintro ⟨meta, hmem, hcl⟩
    exact ⟨(fn, meta), ⟨hmem, by simpa using hcl⟩, rfl⟩

theorem mem_addedFiles_iff {s : Snapshot} {m : Manifest} {fn : Filename} :
    fn ∈ addedFiles s m ↔
      ∃ meta, (fn, meta) ∈ s ∧ classifyEntry m fn meta = .added :=
  mem_classFiltered

theorem mem_updatedFiles_iff {s : Snapshot} {m : Manifest} {fn : Filename} :
    fn ∈ updatedFiles s m ↔
      ∃ meta, (fn, meta) ∈ s ∧ classifyEntry m fn meta = .updated :=
  mem_classFiltered

theorem mem_filenames_to_delete_iff {s : Snapshot} {m : Manifest} {fn : Filename} :
    fn ∈ filenames_to_delete s m ↔
      ∃ e, (fn, e) ∈ m ∧ (s.lookup fn).isNone ∧ endsWithPdf fn := by
  unfold filenames_to_delete
  simp only [List.mem_map, List.mem_filter]
  constructor
  · rintro ⟨⟨a, b⟩, ⟨hmem, hp⟩, rfl⟩
    simp only [Bool.and_eq_true] at hp
    exact ⟨b, hmem, hp.1, hp.2⟩
  · rintro ⟨e, hmem, hnone, hpdf⟩
    exact ⟨(fn, e), ⟨hmem, by simp [hnone, hpdf]⟩, rfl⟩

theorem mem_updatedFiles_of_lookup {s : Snapshot} {m : Manifest} {fn : Filename}
    {meta : FileMeta} (hnd : (s.map Prod.fst).Nodup) (hs : s.lookup fn = some meta) :
    fn ∈ updatedFiles s m ↔ classifyEntry m fn meta = .updated := by
  rw [mem_updatedFiles_iff]
  constructor
  · rintro ⟨meta', hmem, hcl⟩
    have := lookup_eq_some_of_mem hnd hmem
    rw [hs] at this
    cases this
    exact hcl
  · intro hcl
    exact ⟨meta, mem_of_lookup_eq_some hs, hcl⟩

theorem mem_addedFiles_of_lookup {s : Snapshot} {m : Manifest} {fn : Filename}
    {meta : FileMeta} (hnd : (s.map Prod.fst).Nodup) (hs : s.lookup fn = some meta) :
    fn ∈ addedFiles s m ↔ classifyEntry m fn meta = .added := by
  rw [mem_addedFiles_iff]
  constructor
  · rintro ⟨meta', hmem, hcl⟩
    have := lookup_eq_some_of_mem hnd hmem
    rw [hs] at this
    cases this
    exact hcl
  · intro hcl
    exact ⟨meta, mem_of_lookup_eq_some hs, hcl⟩

theorem not_deleted_of_lookup {s : Snapshot} {m : Manifest} {fn : Filename}
    {meta : FileMeta} (hs : s.lookup fn = some meta) :
    fn ∉ filenames_to_delete s m := by
  rw [mem_filenames_to_delete_iff]
  rintro ⟨e, _, hnone, _⟩
  rw [hs] at hnone
  cases hnone

theorem updated_manifest_data_lookup (s : Snapshot) (fn : Filename) :
    (updated_manifest_data s).lookup fn =
      (s.lookup fn).map fun meta =>
        (⟨some meta.last_modified, some meta.file_size⟩ : ManifestEntry) := by
  induction s with
  | nil => rfl
  | cons e rest ih =>
    obtain ⟨k, meta⟩ := e
    by_cases hk : fn = k
    · subst hk
      simp [updated_manifest_data, List.lookup]
    · simp [updated_manifest_data, List.lookup, beq_false_of_ne hk] at ih ⊢
      exact ih

theorem updated_manifest_data_keys (s : Snapshot) :
    (updated_manifest_data s).map Prod.fst = s.map Prod.fst := by
  simp [updated_manifest_data, List.map_map]

theorem sync_saved_or_error (c : Collaborators) (dir : String) (s : Snapshot)
    (m : Manifest) (idx0 : Option Index) :
    (sync_with_state c dir s m idx0).savedManifest = some (updated_manifest_data s) ∨
      ∃ e, (sync_with_state c dir s m idx0).outcome = .error e := by
  unfold sync_with_state
  by_cases h1 : ¬ (docs_to_update dir s m).isEmpty ∨ ¬ (filenames_to_delete s m).isEmpty
  · rw [if_pos h1]
    cases c.loadDir with
    | error e => exact Or.inr ⟨e, rfl⟩
    | ok ds =>
      by_cases h2 : ds.isEmpty
      · simp [h2]
      · cases hb : from_documents c ds with
        | error e => simp [h2, hb]
        | ok bi =>
          cases hp : c.runPipeline ds with
          | error e => simp [h2, hb, hp]
          | ok ns => simp [h2, hb, hp]
  · rw [if_neg h1]
    by_cases h2 : ¬ (docs_to_add dir s m).isEmpty
    · rw [if_pos h2]
      cases c.loadFiles (docs_to_add dir s m) with
      | error e => exact Or.inr ⟨e, rfl⟩
      | ok nd =>
        by_cases h3 : nd.isEmpty
        · simp [h3]
        · cases idx0 with
          | none =>
            cases hb : from_documents c nd with
            | error e => exact Or.inr ⟨e, by simp [h3, hb]⟩
            | ok bi => simp [h3, hb]
          | some idx =>
            cases hp : c.runPipeline nd with
            | error e => simp [h3, hp]
            | ok ns => simp [h3, hp]
    · rw [if_neg h2]
      exact Or.inl rfl

/-- C7: when the computed Added, Updated and Deleted sets are all empty, the
cycle returns the supplied existing index unchanged, makes no collaborator
calls (empty trace), and only the manifest write-back of the current snapshot
occurs. -/
theorem no_changes_no_calls (c : Collaborators) (documents_dir : String)
    (s : Snapshot) (m : Manifest) (existing_index : Option Index)
    (hAdd : docs_to_add documents_dir s m = [])
    (hUpd : docs_to_update documents_dir s m = [])
    (hDel : filenames_to_delete s m = []) :
    sync_with_state c documents_dir s m existing_index =
      ⟨.ok existing_index, [], some (updated_manifest_data s)⟩ := by
  unfold sync_with_state
  simp [hAdd, hUpd, hDel]

/-- Witness for no_changes_no_calls: an unchanged single-file state returns
the existing index with an empty trace. -/
theorem no_changes_no_calls_witness :
    sync_with_state
        ⟨.ok ["dA"], fun ps => .ok ps, fun ds => .ok ds, fun _ => none,
          fun _ _ => none⟩
        "docs" [("a.pdf", ⟨10, 100⟩)] [("a.pdf", ⟨some 10, some 100⟩)]
        (some (.existing 0)) =
      ⟨.ok (some (.existing 0)), [], some [("a.pdf", ⟨some 10, some 100⟩)]⟩ :=
  no_changes_no_calls _ _ _ _ _ (by decide) (by decide) (by decide)

/-- C3: whenever a reconciliation cycle completes (its caught-failure and
success paths alike), the manifest handed to save_manifest is exactly the
snapshot taken at the start of the cycle: same keys, each carrying the
observed last_modified and file_size, and nothing else. -/
theorem manifest_writeback_exact (c : Collaborators) (dir : String)
    (s : Snapshot) (m : Manifest) (idx0 : Option Index) (r : Option Index)
    (h : (sync_with_state c dir s m idx0).outcome = .ok r) :
    (sync_with_state c dir s m idx0).savedManifest = some (updated_manifest_data s) ∧
      (updated_manifest_data s).map Prod.fst = s.map Prod.fst ∧
      ∀ fn, (updated_manifest_data s).lookup fn =
        (s.lookup fn).map fun meta =>
          (⟨some meta.last_modified, some meta.file_size⟩ : ManifestEntry) := by
  refine ⟨?_, updated_manifest_data_keys s, fun fn => updated_manifest_data_lookup s fn⟩
  rcases sync_saved_or_error c dir s m idx0 with hsv | ⟨e, he⟩
  · exact hsv
  · rw [h] at he
    cases he

/-- Witness for manifest_writeback_exact: a cycle that caught a pipeline
failure still hands save_manifest exactly the snapshot. -/
theorem manifest_writeback_exact_witness :
    (sync_with_state
        ⟨.ok ["dA"], fun ps => .ok ps, fun _ => .error "pipeline down",
          fun _ => none, fun _ _ => none⟩
        "docs" [("a.pdf", ⟨11, 100⟩)] [("a.pdf", ⟨some 10, some 100⟩)]
        (some (.existing 0))).savedManifest =
      some [("a.pdf", ⟨some 11, some 100⟩)] :=
  (manifest_writeback_exact _ _ _ _ _ (some (.builtFrom ["dA"])) (by decide)).1

/-- C4: for an identifier present in snapshot and manifest with a complete
manifest entry, it is classified Updated iff the snapshot timestamp is
strictly greater or the sizes differ; otherwise it is excluded from Added,
Updated and Deleted alike. -/
theorem updated_classification_iff (s : Snapshot) (m : Manifest) (fn : Filename)
    (meta : FileMeta) (olm : Int) (osz : Nat)
    (hnd : (s.map Prod.fst).Nodup)
    (hs : s.lookup fn = some meta)
    (hm : m.lookup fn = some ⟨some olm, some osz⟩) :
    (fn ∈ updatedFiles s m ↔ (meta.last_modified > olm ∨ meta.file_size ≠ osz)) ∧
      (¬ (meta.last_modified > olm ∨ meta.file_size ≠ osz) →
        fn ∉ addedFiles s m ∧ fn ∉ updatedFiles s m ∧
          fn ∉ filenames_to_delete s m) := by
  have hcl : classifyEntry m fn meta =
      if meta.last_modified > olm ∨ meta.file_size ≠ osz then .updated
      else .unchanged := by
    unfold classifyEntry
    rw [hm]
  constructor
  · rw [mem_updatedFiles_of_lookup hnd hs, hcl]
    by_cases hcond : meta.last_modified > olm ∨ meta.file_size ≠ osz
    · simp [hcond]
    · simp [hcond]
  · intro hcond
    refine ⟨?_, ?_, not_deleted_of_lookup hs⟩
    · rw [mem_addedFiles_of_lookup hnd hs, hcl]
      simp [hcond]
    · rw [mem_updatedFiles_of_lookup hnd hs, hcl]
      simp [hcond]

/-- Witness for updated_classification_iff: equal timestamp with a differing
size is Updated, and a decreased timestamp with an equal size is excluded
from all three sets. -/
theorem updated_classification_iff_witness :
    "a.pdf" ∈ updatedFiles [("a.pdf", ⟨10, 200⟩)] [("a.pdf", ⟨some 10, some 100⟩)] ∧
      "b.pdf" ∉ updatedFiles [("b.pdf", ⟨5, 100⟩)] [("b.pdf", ⟨some 10, some 100⟩)] :=
  ⟨(updated_classification_iff _ _ "a.pdf" ⟨10, 200⟩ 10 100 (by decide) (by decide)
      (by decide)).1.mpr (by decide),
    ((updated_classification_iff _ _ "b.pdf" ⟨5, 100⟩ 10 100 (by decide) (by decide)
      (by decide)).2 (by decide)).2.1⟩

/-- Counterexample to C5 as stated: a snapshot file whose manifest entry is
missing file_size lands in docs_to_update, not docs_to_add. -/
theorem incomplete_entry_added_cex :
    "a.pdf" ∉ addedFiles [("a.pdf", ⟨10, 100⟩)] [("a.pdf", ⟨some 10, none⟩)] ∧
      "a.pdf" ∈ updatedFiles [("a.pdf", ⟨10, 100⟩)] [("a.pdf", ⟨some 10, none⟩)] := by
  decide

/-- C5 amended: an identifier whose manifest entry exists but is missing
last_modified or file_size is placed in the Updated set (triggering the full
rebuild path), not in the Added set. -/
theorem incomplete_entry_marked_updated (s : Snapshot) (m : Manifest)
    (fn : Filename) (meta : FileMeta) (e : ManifestEntry)
    (hnd : (s.map Prod.fst).Nodup) (hs : s.lookup fn = some meta)
    (hm : m.lookup fn = some e)
    (hmiss : e.last_modified = none ∨ e.file_size = none) :
    fn ∈ updatedFiles s m ∧ fn ∉ addedFiles s m := by
  have hcl : classifyEntry m fn meta = .updated := by
    unfold classifyEntry
    rw [hm]
    obtain ⟨lm, sz⟩ := e
    cases lm <;> cases sz <;> simp_all
  constructor
  · exact (mem_updatedFiles_of_lookup hnd hs).mpr hcl
  · rw [mem_addedFiles_of_lookup hnd hs, hcl]
    simp

/-- Witness for incomplete_entry_marked_updated at the counterexample's
input. -/
theorem incomplete_entry_marked_updated_witness :
    "a.pdf" ∈ updatedFiles [("a.pdf", ⟨10, 100⟩)] [("a.pdf", ⟨some 10, none⟩)] :=
  (incomplete_entry_marked_updated _ _ "a.pdf" ⟨10, 100⟩ ⟨some 10, none⟩
    (by decide) (by decide) (by decide) (Or.inr rfl)).1

/-- C8: load_manifest returns the parsed contents when the file exists and
parses, and the empty manifest in every other case (absent file, read
failure, malformed JSON); being a total function of the file state, it never
raises. -/
theorem load_manifest_graceful (f : ManifestFile) :
    (∀ m, f = .parsed m → load_manifest f = m) ∧
      ((∀ m, f ≠ .parsed m) → load_manifest f = []) := by
  cases f with
  | absent => exact ⟨fun m h => (nomatch h), fun _ => rfl⟩
  | readFail e => exact ⟨fun m h => (nomatch h), fun _ => rfl⟩
  | badJson e => exact ⟨fun m h => (nomatch h), fun _ => rfl⟩
  | parsed m0 =>
    exact ⟨fun m h => (by cases h; rfl), fun h => absurd rfl (h m0)⟩

/-- Witness for load_manifest_graceful: a parsed file returns its contents
and a malformed file returns the empty manifest. -/
theorem load_manifest_graceful_witness :
    load_manifest (.parsed [("a.pdf", ⟨some 1, some 2⟩)]) =
        [("a.pdf", ⟨some 1, some 2⟩)] ∧
      load_manifest (.badJson "bad") = [] :=
  ⟨(load_manifest_graceful (.parsed [("a.pdf", ⟨some 1, some 2⟩)])).1 _ rfl,
    (load_manifest_graceful (.badJson "bad")).2 (fun m h => by cases h)⟩

/-- C9: in the full-rebuild branch, when the reload yields documents and every
collaborator step succeeds, the complete document set is ingested twice: the
new index is built directly from all raw documents by from_documents, and the
ingestion transform then runs over the same complete set with its nodes
inserted into that same new index. -/
theorem full_rebuild_double_ingestion (c : Collaborators) (dir : String)
    (s : Snapshot) (m : Manifest) (idx0 : Option Index) (docs : List Document)
    (ns : List Node)
    (hch : ¬ (docs_to_update dir s m).isEmpty ∨ ¬ (filenames_to_delete s m).isEmpty)
    (hload : c.loadDir = .ok docs) (hne : docs.isEmpty = false)
    (hbuild : c.buildFail docs = none)
    (hp : c.runPipeline docs = .ok ns) (hnn : ns.isEmpty = false)
    (hins : c.insertFail (Index.builtFrom docs) ns = none) :
    sync_with_state c dir s m idx0 =
      ⟨.ok (some (Index.insertedNodes (Index.builtFrom docs) ns)),
        [.loadDirCall, .buildCall docs, .pipelineCall docs, .insertCall ns],
        some (updated_manifest_data s)⟩ := by
  unfold sync_with_state
  rw [if_pos hch, hload]
  simp [hne, from_documents, hbuild, hp, index_nodes_llamaindex, insert_nodes,
    hnn, hins]

/-- Witness for full_rebuild_double_ingestion on a one-file update. -/
theorem full_rebuild_double_ingestion_witness :
    sync_with_state
        ⟨.ok ["dA"], fun ps => .ok ps, fun ds => .ok (ds.map fun d => "n:" ++ d),
          fun _ => none, fun _ _ => none⟩
        "docs" [("a.pdf", ⟨10, 200⟩)] [("a.pdf", ⟨some 10, some 100⟩)]
        (some (.existing 0)) =
      ⟨.ok (some (Index.insertedNodes (Index.builtFrom ["dA"]) ["n:dA"])),
        [.loadDirCall, .buildCall ["dA"], .pipelineCall ["dA"],
          .insertCall ["n:dA"]],
        some [("a.pdf", ⟨some 10, some 200⟩)]⟩ :=
  full_rebuild_double_ingestion _ _ _ _ _ ["dA"] ["n:dA"]
    (by decide) rfl rfl rfl rfl rfl rfl

/-- Counterexample to C2 as stated: with a nonempty Updated set but a full
reload that returns no documents, the cycle keeps the prior index (no fresh
index is built and nothing replaces the old one). -/
theorem rebuild_skipped_on_empty_load_cex :
    updatedFiles [("a.pdf", ⟨10, 200⟩)] [("a.pdf", ⟨some 10, some 100⟩)] = ["a.pdf"] ∧
      (sync_with_state
          ⟨.ok [], fun ps => .ok ps, fun ds => .ok ds, fun _ => none,
            fun _ _ => none⟩
          "docs" [("a.pdf", ⟨10, 200⟩)] [("a.pdf", ⟨some 10, some 100⟩)]
          (some (.existing 0))).outcome = .ok (some (.existing 0)) ∧
      (sync_with_state
          ⟨.ok [], fun ps => .ok ps, fun ds => .ok ds, fun _ => none,
            fun _ _ => none⟩
          "docs" [("a.pdf", ⟨10, 200⟩)] [("a.pdf", ⟨some 10, some 100⟩)]
          (some (.existing 0))).trace = [.loadDirCall] := by
  decide

/-- C2 amended: a nonempty Updated or Deleted set triggers the full-rebuild
branch - the directory-wide reload runs, and provided it returns at least one
document and from_documents succeeds, the returned index is a brand-new index
built from the complete reloaded document set (possibly with the transformed
nodes of that same set inserted on top), discarding the prior index. -/
theorem rebuild_on_update_or_delete (c : Collaborators) (dir : String)
    (s : Snapshot) (m : Manifest) (idx0 : Option Index) (docs : List Document)
    (hch : ¬ (docs_to_update dir s m).isEmpty ∨ ¬ (filenames_to_delete s m).isEmpty)
    (hload : c.loadDir = .ok docs) (hne : docs.isEmpty = false)
    (hbuild : c.buildFail docs = none) :
    Event.loadDirCall ∈ (sync_with_state c dir s m idx0).trace ∧
      ∃ idx, (sync_with_state c dir s m idx0).outcome = .ok (some idx) ∧
        (idx = Index.builtFrom docs ∨
          ∃ ns, idx = Index.insertedNodes (Index.builtFrom docs) ns) := by
  unfold sync_with_state
  rw [if_pos hch, hload]
  cases hp : c.runPipeline docs with
  | error e =>
    simp [hne, from_documents, hbuild, hp]
  | ok ns =>
    by_cases hnn : ns.isEmpty
    · simp [hne, from_documents, hbuild, hp, index_nodes_llamaindex, hnn]
    · cases hins : c.insertFail (Index.builtFrom docs) ns with
      | none =>
        simp [hne, from_documents, hbuild, hp, index_nodes_llamaindex,
          insert_nodes, hnn, hins]
      | some e =>
        simp [hne, from_documents, hbuild, hp, index_nodes_llamaindex,
          insert_nodes, hnn, hins]

/-- Witness for rebuild_on_update_or_delete on a one-file deletion. -/
theorem rebuild_on_update_or_delete_witness :
    Event.loadDirCall ∈
        (sync_with_state
          ⟨.ok ["dA"], fun ps => .ok ps, fun ds => .ok ds, fun _ => none,
            fun _ _ => none⟩
          "docs" [] [("gone.pdf", ⟨some 3, some 4⟩)] (some (.existing 0))).trace ∧
      ∃ idx,
        (sync_with_state
          ⟨.ok ["dA"], fun ps => .ok ps, fun ds => .ok ds, fun _ => none,
            fun _ _ => none⟩
          "docs" [] [("gone.pdf", ⟨some 3, some 4⟩)] (some (.existing 0))).outcome =
            .ok (some idx) ∧
          (idx = Index.builtFrom ["dA"] ∨
            ∃ ns, idx = Index.insertedNodes (Index.builtFrom ["dA"]) ns) :=
  rebuild_on_update_or_delete _ _ _ _ _ ["dA"] (by decide) rfl rfl rfl

/-- C6: with a nonempty Added set, empty Updated and Deleted sets, and an
existing index supplied, the cycle never loads the whole directory, loads
content only for exactly the Added paths, and every insert it performs uses
only nodes the ingestion transform produced from that Added content. -/
theorem incremental_path_only_added (c : Collaborators) (dir : String)
    (s : Snapshot) (m : Manifest) (idx : Index)
    (hUpd : docs_to_update dir s m = [])
    (hDel : filenames_to_delete s m = [])
    (hAdd : (docs_to_add dir s m).isEmpty = false) :
    Event.loadDirCall ∉ (sync_with_state c dir s m (some idx)).trace ∧
      (∀ ps, Event.loadFilesCall ps ∈ (sync_with_state c dir s m (some idx)).trace →
        ps = docs_to_add dir s m) ∧
      (∀ ns, Event.insertCall ns ∈ (sync_with_state c dir s m (some idx)).trace →
        ∃ nd, c.loadFiles (docs_to_add dir s m) = .ok nd ∧
          c.runPipeline nd = .ok ns) := by
  have h1 : ¬ (¬ (docs_to_update dir s m).isEmpty ∨
      ¬ (filenames_to_delete s m).isEmpty) := by
    simp [hUpd, hDel]
  cases hld : c.loadFiles (docs_to_add dir s m) with
  | error e =>
    have hres : sync_with_state c dir s m (some idx) =
        ⟨.error e, [.loadFilesCall (docs_to_add dir s m)], none⟩ := by
      unfold sync_with_state
      rw [if_neg h1]
      simp [hAdd, hld]
    rw [hres]
    refine ⟨by simp, ?_, ?_⟩
    · intro ps hps
      simpa using hps
    · intro ns hns
      simp at hns
  | ok nd =>
    by_cases hnd : nd.isEmpty
    · have hres : sync_with_state c dir s m (some idx) =
          ⟨.ok (some idx), [.loadFilesCall (docs_to_add dir s m)],
            some (updated_manifest_data s)⟩ := by
        unfold sync_with_state
        rw [if_neg h1]
        simp [hAdd, hld, hnd]
      rw [hres]
      refine ⟨by simp, ?_, ?_⟩
      · intro ps hps
        simpa using hps
      · intro ns hns
        simp at hns
    · cases hp : c.runPipeline nd with
      | error e =>
        have hres : sync_with_state c dir s m (some idx) =
            ⟨.ok (some idx),
              [.loadFilesCall (docs_to_add dir s m), .pipelineCall nd],
              some (updated_manifest_data s)⟩ := by
          unfold sync_with_state
          rw [if_neg h1]
          simp [hAdd, hld, hnd, hp]
        rw [hres]
        refine ⟨by simp, ?_, ?_⟩
        · intro ps hps
          simpa using hps
        · intro ns hns
          simp at hns
      | ok ns0 =>
        by_cases hnn : ns0.isEmpty
        · have hres : sync_with_state c dir s m (some idx) =
              ⟨.ok (some idx),
                [.loadFilesCall (docs_to_add dir s m), .pipelineCall nd],
                some (updated_manifest_data s)⟩ := by
            unfold sync_with_state
            rw [if_neg h1]
            simp [hAdd, hld, hnd, hp, index_nodes_llamaindex, hnn]
          rw [hres]
          refine ⟨by simp, ?_, ?_⟩
          · intro ps hps
            simpa using hps
          · intro ns hns
            simp at hns
        · have hres : ∃ idx2,
              sync_with_state c dir s m (some idx) =
                ⟨.ok (some idx2),
                  [.loadFilesCall (docs_to_add dir s m), .pipelineCall nd,
                    .insertCall ns0],
                  some (updated_manifest_data s)⟩ := by
            cases hins : c.insertFail idx ns0 with
            | none =>
              refine ⟨Index.insertedNodes idx ns0, ?_⟩
              unfold sync_with_state
              rw [if_neg h1]
              simp [hAdd, hld, hnd, hp, index_nodes_llamaindex, insert_nodes,
                hnn, hins]
            | some e =>
              refine ⟨idx, ?_⟩
              unfold sync_with_state
              rw [if_neg h1]
              simp [hAdd, hld, hnd, hp, index_nodes_llamaindex, insert_nodes,
                hnn, hins]
          obtain ⟨idx2, hres⟩ := hres
          rw [hres]
          refine ⟨by simp, ?_, ?_⟩
          · intro ps hps
            simpa using hps
          · intro ns hns
            simp at hns
            subst hns
            exact ⟨nd, rfl, hp⟩

/-- Witness for incremental_path_only_added: one new file next to one
unchanged file loads only the new file's path. -/
theorem incremental_path_only_added_witness :
    Event.loadDirCall ∉
        (sync_with_state
          ⟨.ok ["dA", "dB"], fun ps => .ok (ps.map fun p => "doc:" ++ p),
            fun ds => .ok (ds.map fun d => "n:" ++ d), fun _ => none,
            fun _ _ => none⟩
          "docs" [("a.pdf", ⟨10, 100⟩), ("b.pdf", ⟨5, 7⟩)]
          [("a.pdf", ⟨some 10, some 100⟩)] (some (.existing 0))).trace ∧
      (∀ ps, Event.loadFilesCall ps ∈
          (sync_with_state
            ⟨.ok ["dA", "dB"], fun ps => .ok (ps.map fun p => "doc:" ++ p),
              fun ds => .ok (ds.map fun d => "n:" ++ d), fun _ => none,
              fun _ _ => none⟩
            "docs" [("a.pdf", ⟨10, 100⟩), ("b.pdf", ⟨5, 7⟩)]
            [("a.pdf", ⟨some 10, some 100⟩)] (some (.existing 0))).trace →
        ps = docs_to_add "docs" [("a.pdf", ⟨10, 100⟩), ("b.pdf", ⟨5, 7⟩)]
          [("a.pdf", ⟨some 10, some 100⟩)]) ∧
      (∀ ns, Event.insertCall ns ∈
          (sync_with_state
            ⟨.ok ["dA", "dB"], fun ps => .ok (ps.map fun p => "doc:" ++ p),
              fun ds => .ok (ds.map fun d => "n:" ++ d), fun _ => none,
              fun _ _ => none⟩
            "docs" [("a.pdf", ⟨10, 100⟩), ("b.pdf", ⟨5, 7⟩)]
            [("a.pdf", ⟨some 10, some 100⟩)] (some (.existing 0))).trace →
        ∃ nd,
          (fun ps => .ok (ps.map fun p => "doc:" ++ p) :
              List Path → Except Err (List Document))
            (docs_to_add "docs" [("a.pdf", ⟨10, 100⟩), ("b.pdf", ⟨5, 7⟩)]
              [("a.pdf", ⟨some 10, some 100⟩)]) = .ok nd ∧
          (fun ds => .ok (ds.map fun d => "n:" ++ d) :
              List Document → Except Err (List Node)) nd = .ok ns) :=
  incremental_path_only_added _ _ _ _ _ (by decide) (by decide) (by decide)

theorem sync_with_state_no_escape (c : Collaborators) (dir : String)
    (s : Snapshot) (m : Manifest) (idx : Index)
    (hLoadDir : ∃ ds, c.loadDir = .ok ds)
    (hLoadFiles : ∀ ps, ∃ ds, c.loadFiles ps = .ok ds) :
    (∃ r, (sync_with_state c dir s m (some idx)).outcome = .ok r) ∧
      (sync_with_state c dir s m (some idx)).savedManifest =
        some (updated_manifest_data s) := by
  obtain ⟨dsD, hD⟩ := hLoadDir
  unfold sync_with_state
  by_cases h1 : ¬ (docs_to_update dir s m).isEmpty ∨ ¬ (filenames_to_delete s m).isEmpty
  · rw [if_pos h1, hD]
    by_cases h2 : dsD.isEmpty
    · simp [h2]
    · cases hb : c.buildFail dsD with
      | some e => simp [h2, from_documents, hb]
      | none =>
        cases hp : c.runPipeline dsD with
        | error e => simp [h2, from_documents, hb, hp]
        | ok ns => simp [h2, from_documents, hb, hp]
  · rw [if_neg h1]
    by_cases h2 : ¬ (docs_to_add dir s m).isEmpty
    · obtain ⟨nd, hld⟩ := hLoadFiles (docs_to_add dir s m)
      rw [if_pos h2, hld]
      by_cases h3 : nd.isEmpty
      · simp [h3]
      · cases hp : c.runPipeline nd with
        | error e => simp [h3, hp]
        | ok ns => simp [h3, hp]
    · rw [if_neg h2]
      simp

/-- Counterexample to C1 as stated: with a previously-manifested file now
absent (forcing the rebuild branch) and a directory content load that raises,
the exception escapes sync_documents_with_vector_store and the manifest
write-back step is never reached. -/
theorem sync_load_exception_escapes_cex :
    (sync_documents_with_vector_store
        ⟨.error "load failed", fun _ => .ok [], fun ds => .ok ds, fun _ => none,
          fun _ _ => none⟩
        ⟨.ok [], fun _ => false, fun _ => .error "io"⟩
        (.parsed [("a.pdf", ⟨some 1, some 1⟩)]) "docs"
        (some (.existing 0))).outcome = .error "load failed" ∧
      (sync_documents_with_vector_store
        ⟨.error "load failed", fun _ => .ok [], fun ds => .ok ds, fun _ => none,
          fun _ _ => none⟩
        ⟨.ok [], fun _ => false, fun _ => .error "io"⟩
        (.parsed [("a.pdf", ⟨some 1, some 1⟩)]) "docs"
        (some (.existing 0))).savedManifest = none := by
  decide

/-- C1 amended: whenever both content-load collaborators return normally and
an existing index is supplied, no exception escapes the cycle - failures of
the ingestion transform, of from_documents in the rebuild branch, and of the
node insert are all caught and logged - and the cycle always reaches the
manifest write-back with the snapshot taken at its start. Content-load
exceptions (and from_documents exceptions on the incremental path without an
existing index) do escape, as the counterexample shows. -/
theorem sync_catches_transform_and_insert_errors (c : Collaborators)
    (fs : DirFS) (mf : ManifestFile) (dir : String) (idx : Index)
    (hLoadDir : ∃ ds, c.loadDir = .ok ds)
    (hLoadFiles : ∀ ps, ∃ ds, c.loadFiles ps = .ok ds) :
    (∃ r, (sync_documents_with_vector_store c fs mf dir (some idx)).outcome = .ok r) ∧
      (sync_documents_with_vector_store c fs mf dir (some idx)).savedManifest =
        some (updated_manifest_data (get_document_state fs dir)) :=
  sync_with_state_no_escape c dir (get_document_state fs dir) (load_manifest mf)
    idx hLoadDir hLoadFiles

/-- Witness for sync_catches_transform_and_insert_errors: an updated file
whose ingestion transform raises still completes the cycle and writes the
snapshot back. -/
theorem sync_catches_transform_and_insert_errors_witness :
    (∃ r, (sync_documents_with_vector_store
        ⟨.ok ["dA"], fun ps => .ok ps, fun _ => .error "transform down",
          fun _ => none, fun _ _ => none⟩
        ⟨.ok ["a.pdf"], fun _ => true, fun _ => .ok ⟨11, 100⟩⟩
        (.parsed [("a.pdf", ⟨some 10, some 100⟩)]) "docs"
        (some (.existing 0))).outcome = .ok r) ∧
      (sync_documents_with_vector_store
        ⟨.ok ["dA"], fun ps => .ok ps, fun _ => .error "transform down",
          fun _ => none, fun _ _ => none⟩
        ⟨.ok ["a.pdf"], fun _ => true, fun _ => .ok ⟨11, 100⟩⟩
        (.parsed [("a.pdf", ⟨some 10, some 100⟩)]) "docs"
        (some (.existing 0))).savedManifest =
        some (updated_manifest_data (get_document_state
          ⟨.ok ["a.pdf"], fun _ => true, fun _ => .ok ⟨11, 100⟩⟩ "docs")) :=
  sync_catches_transform_and_insert_errors _ _ _ _ _
    ⟨["dA"], rfl⟩ (fun ps => ⟨ps, rfl⟩)

theorem scanFiles_stops_at_failure (fs : DirFS) (dir : String) (fn : Filename)
    (post : List Filename) (e : Err)
    (hpdf : endsWithPdf fn = true)
    (hisf : fs.isFile (joinPath dir fn) = true)
    (hmeta : fs.fileMeta (joinPath dir fn) = .error e) :
    ∀ pre, (∀ f ∈ pre, ∃ mv, fs.fileMeta (joinPath dir f) = .ok mv) →
      scanFiles fs dir (pre ++ fn :: post) = scanFiles fs dir pre := by
  intro pre
  induction pre with
  | nil =>
    intro _
    simp [scanFiles, hpdf, hisf, hmeta]
  | cons p rest ih =>
    intro hok
    simp only [List.cons_append, scanFiles]
    by_cases hp1 : endsWithPdf p
    · by_cases hp2 : fs.isFile (joinPath dir p)
      · obtain ⟨mv, hmv⟩ := hok p (by simp)
        simp [hp1, hp2, hmv, ih (fun f hf => hok f (by simp [hf]))]
      · simp [hp1, hp2, ih (fun f hf => hok f (by simp [hf]))]
    · simp [hp1, ih (fun f hf => hok f (by simp [hf]))]

/-- Counterexample to C10's claim that the result is empty only when the
initial listing fails: a successful listing whose first (and only) file fails
its metadata read also yields an empty snapshot. -/
theorem scan_empty_despite_listing_ok_cex :
    get_document_state ⟨.ok ["a.pdf"], fun _ => true, fun _ => .error "io"⟩ "d" = [] ∧
      (⟨.ok ["a.pdf"], fun _ => true, fun _ => .error "io"⟩ : DirFS).listing =
        .ok ["a.pdf"] := by
  decide

/-- C10 amended: get_document_state is a total function of the filesystem
oracle (never raises); a listing failure yields the empty snapshot; and when
a qualifying file's metadata read fails mid-scan while all earlier files read
successfully, the result is exactly the partial snapshot accumulated over the
earlier files - empty when the failing file comes first or nothing qualified
before it. -/
theorem scan_partial_on_meta_failure (fs : DirFS) (dir : String)
    (pre post : List Filename) (fn : Filename) (e : Err)
    (hlist : fs.listing = .ok (pre ++ fn :: post))
    (hpdf : endsWithPdf fn = true)
    (hisf : fs.isFile (joinPath dir fn) = true)
    (hmeta : fs.fileMeta (joinPath dir fn) = .error e)
    (hok : ∀ f ∈ pre, ∃ mv, fs.fileMeta (joinPath dir f) = .ok mv) :
    get_document_state fs dir = scanFiles fs dir pre ∧
      ∀ (fs2 : DirFS) (dir2 : String) (e2 : Err), fs2.listing = .error e2 →
        get_document_state fs2 dir2 = [] := by
  constructor
  · unfold get_document_state
    rw [hlist]
    exact scanFiles_stops_at_failure fs dir fn post e hpdf hisf hmeta pre hok
  · intro fs2 dir2 e2 h2
    unfold get_document_state
    rw [h2]

/-- Witness for scan_partial_on_meta_failure: the file scanned before the
failing one is kept in the returned snapshot. -/
theorem scan_partial_on_meta_failure_witness :
    get_document_state
        ⟨.ok ["x.pdf", "a.pdf"], fun _ => true,
          fun p => if p = "d/x.pdf" then .ok ⟨1, 2⟩ else .error "io"⟩ "d" =
      [("x.pdf", ⟨1, 2⟩)] :=
  (scan_partial_on_meta_failure _ "d" ["x.pdf"] [] "a.pdf" "io" rfl (by decide)
    rfl (by decide)
    (fun f hf => by
      simp at hf
      subst hf
      exact ⟨⟨1, 2⟩, by decide⟩)).1

end LocalizedRag
